import Mathlib

/-!
A verification development for a Go program that probes a list of Heroku
application endpoints over HTTP, classifies each response body with ordered
substring heuristics, and collects one result per target through a channel.

The embedding is shallow: response bodies are lists of characters (Go byte
slices over ASCII content), the network is an explicit `FetchOutcome` value
handed to each worker, and Go's `body[:tLen]` slicing — which panics when the
bound exceeds the length — is modelled by an `Option`-valued slice so that
totality of the classifier is a real theorem, not a triviality.  The worker
additionally returns the list of URLs it fetched, so "no network call was
made" is expressible as that list being empty.
-/

/-- Mirrors Go `bytes.Contains(hay, needle)`: true iff `needle` occurs as a
contiguous run inside `hay` (an empty needle is always contained). -/
def containsSub : List Char → List Char → Bool
  | [], needle => needle.isEmpty
  | h :: t, needle => needle.isPrefixOf (h :: t) || containsSub t needle

/-- String-level wrapper for `containsSub`, mirroring Go
`strings.Contains(s, sub)`. -/
def containsStr (s sub : String) : Bool :=
  containsSub s.toList sub.toList

/-- The result record sent by each worker, Go type `reqRslt`:
application name, accessibility verdict, HTTP status, free-text notes. -/
structure reqRslt where
  App : String
  Accessible : Bool
  Status : Nat
  Notes : String
deriving DecidableEq, Repr

/-- The outcome the network hands to a single worker's `http.Get` plus body
read: a transport-level error carrying an error message, a body-read error
after a response arrived, or a successful response with status code and
body bytes. -/
inductive FetchOutcome where
  | transportErr (msg : String)
  | readErr (msg : String)
  | success (status : Nat) (body : List Char)
deriving DecidableEq, Repr

/-- Go `isHTML`: the body contains `<html` or `<HTML`, and then `<body` or
`<BODY`. -/
def isHTML (b : List Char) : Bool :=
  if containsSub b ("<html").toList || containsSub b ("<HTML").toList then
    containsSub b ("<body").toList || containsSub b ("<BODY").toList
  else
    false

/-- Go `isHerokuErrPage`: the body contains the Heroku application-error
page marker. -/
def isHerokuErrPage (b : List Char) : Bool :=
  containsSub b ("www.herokucdn.com/error-pages/application-error.html").toList

/-- Go `isHerokuWelPage`: the body contains the Heroku welcome-page
marker. -/
def isHerokuWelPage (b : List Char) : Bool :=
  containsSub b ("Welcome to your new app").toList

/-- Go `isAvantErrPage`: the body contains either locale variant of the
Avant error-page marker. -/
def isAvantErrPage (b : List Char) : Bool :=
  containsSub b
      ("We have been notified, please try again later. Have a question? Call us at 800-712-5407").toList
    || containsSub b
      ("We have been notified, please try again later. Have a question? Call us at 0800 610 1516").toList

/-- The fetch URL built by the worker:
`fmt.Sprintf("http://%v.herokuapp.com", site)`. -/
def appURL (site : String) : String :=
  "http://" ++ site ++ ".herokuapp.com"

/-- Go slicing `b[:n]`: defined only when `n ≤ len(b)`, otherwise the Go
program panics, modelled as `none`. -/
def goSlice (b : List Char) (n : Nat) : Option (List Char) :=
  if n ≤ b.length then some (b.take n) else none

/-- Go `procApp`: process one site given the network's behaviour for its
single GET.  Returns the result record together with the list of URLs the
worker actually fetched; `none` models a runtime panic (only possible, a
priori, at the body slice in the fallback branch). -/
def procApp (site : String) (f : FetchOutcome) : Option (reqRslt × List String) :=
  if site.length = 0 then
    some (⟨site, false, 999, "no site name was provided"⟩, [])
  else
    match f with
    | .transportErr msg =>
      if containsStr msg "EOF" then
        some (⟨site, false, 999, "no response data: " ++ msg⟩, [appURL site])
      else if containsStr msg "x509: certificate is valid for" then
        some (⟨site, false, 200, "SSL certificate error: " ++ msg⟩, [appURL site])
      else
        some (⟨site, false, 999, "error getting site response: " ++ msg⟩, [appURL site])
    | .readErr msg =>
      some (⟨site, false, 999, "error reading the site response: " ++ msg⟩, [appURL site])
    | .success st body =>
      if isAvantErrPage body then
        some (⟨site, false, st, "Avant error page"⟩, [appURL site])
      else if isHerokuErrPage body then
        some (⟨site, false, st, "Heroku error page"⟩, [appURL site])
      else if isHerokuWelPage body then
        some (⟨site, false, st, "Heroku welcome page"⟩, [appURL site])
      else if isHTML body then
        some (⟨site, true, st, "HTML page"⟩, [appURL site])
      else
        let tLen := if body.length < 50 then body.length else 50
        match goSlice body tLen with
        | some pre =>
          some (⟨site, true, st,
                 "found this (first " ++ toString tLen ++ " bytes): "
                   ++ pre.asString ++ "..."⟩,
                [appURL site])
        | none => none

/-- The results produced by the fan-out in `main`: one worker per app, the
worker for position `i` seeing network behaviour `env i`.  A worker that
panicked (`none`) contributes nothing to the channel. -/
def probeAll : List String → (Nat → FetchOutcome) → List reqRslt
  | [], _ => []
  | a :: rest, env =>
    (match procApp a (env 0) with
     | some (r, _) => [r]
     | none => []) ++ probeAll rest (fun i => env (i + 1))

/-- One printed report row:
`fmt.Printf("%v,%v,%v,%v\n", v.App, v.Accessible, v.Status, v.Notes)`. -/
def reportRow (v : reqRslt) : String :=
  v.App ++ "," ++ toString v.Accessible ++ "," ++ toString v.Status ++ "," ++ v.Notes

/-- The full printed report: the fixed header line followed by one row per
drained result, in drain order. -/
def report (drained : List reqRslt) : List String :=
  "Application,Accessible,HTTP Status,Notes" :: drained.map reportRow

/-- Projection of a worker outcome onto the Status field of its result. -/
def statusOf (o : Option (reqRslt × List String)) : Option Nat :=
  o.map (fun p => p.1.Status)

/-- A network environment that answers every worker with the same
outcome (used to instantiate the fan-out on concrete inputs). -/
def constEnv (f : FetchOutcome) : Nat → FetchOutcome :=
  fun _ => f

/-- State of the dispatcher/collector in `main`: results of workers that
have not yet sent on the channel and called `wg.Done`, the channel
contents in arrival order, the rows already drained by the collector, and
whether `wg.Wait` has returned (draining has begun). -/
structure CState where
  pending : List reqRslt
  chan : List reqRslt
  drained : List reqRslt
  draining : Bool

/-- Interleaving semantics of `main`: any not-yet-finished worker may
deliver its result to the channel; `wg.Wait` returns only once every
worker has finished; after that the collector pops the channel head and
prints it as a row. -/
inductive CStep : CState → CState → Prop where
  | finish : ∀ (l1 : List reqRslt) (r : reqRslt) (l2 ch dr : List reqRslt) (d : Bool),
      CStep ⟨l1 ++ r :: l2, ch, dr, d⟩ ⟨l1 ++ l2, ch ++ [r], dr, d⟩
  | startDrain : ∀ (ch dr : List reqRslt),
      CStep ⟨[], ch, dr, false⟩ ⟨[], ch, dr, true⟩
  | drainOne : ∀ (p : List reqRslt) (r : reqRslt) (rest dr : List reqRslt),
      CStep ⟨p, r :: rest, dr, true⟩ ⟨p, rest, dr ++ [r], true⟩

/-- Initial collector state: all workers outstanding, channel empty,
nothing drained, `wg.Wait` not yet passed. -/
def initState (apps : List String) (env : Nat → FetchOutcome) : CState :=
  ⟨probeAll apps env, [], [], false⟩

/-- The clamp `tLen = min(50, len(body))` computed by the fallback branch
always yields an in-bounds slice. -/
theorem goSlice_clamp (b : List Char) :
    goSlice b (if b.length < 50 then b.length else 50)
      = some (b.take (if b.length < 50 then b.length else 50)) := by
  have h : (if b.length < 50 then b.length else 50) ≤ b.length := by
    split <;> omega
  simp [goSlice, h]

/-- Slicing a body at its own length is in bounds. -/
theorem goSlice_len (b : List Char) : goSlice b b.length = some (b.take b.length) := by
  unfold goSlice
  rw [if_pos (Nat.le_refl _)]

/-- Slicing a body of at least 50 bytes at 50 is in bounds. -/
theorem goSlice_50 (b : List Char) (h : 50 ≤ b.length) : goSlice b 50 = some (b.take 50) := by
  unfold goSlice
  rw [if_pos h]

/-- Every run of the worker returns a result (never panics) and echoes the
site it was given in the App field. -/
theorem procApp_spec (site : String) (f : FetchOutcome) :
    ∃ r calls, procApp site f = some (r, calls) ∧ r.App = site := by
  unfold procApp
  repeat' split
  all_goals first
    | exact ⟨_, _, rfl, rfl⟩
    | (dsimp only; rw [goSlice_len]; exact ⟨_, _, rfl, rfl⟩)
    | (dsimp only; rw [goSlice_50 _ (by omega)]; exact ⟨_, _, rfl, rfl⟩)

/-- The fan-out produces results whose App fields are, in order, exactly
the input identifiers. -/
theorem probeAll_map_app (apps : List String) (env : Nat → FetchOutcome) :
    (probeAll apps env).map reqRslt.App = apps := by
  induction apps generalizing env with
  | nil => rfl
  | cons a rest ih =>
    obtain ⟨r, calls, heq, happ⟩ := procApp_spec a (env 0)
    simp [probeAll, heq, happ, ih]

/-- The fan-out produces exactly one result per input identifier. -/
theorem probeAll_length (apps : List String) (env : Nat → FetchOutcome) :
    (probeAll apps env).length = apps.length := by
  rw [← List.length_map (probeAll apps env) reqRslt.App, probeAll_map_app]

/-- One collector step preserves the run invariant: result conservation,
the barrier (draining implies no outstanding worker), and silence before
the barrier (no row drained while workers may still be running). -/
theorem cstep_inv (N : Nat) (s t : CState) (hs : CStep s t)
    (h1 : s.pending.length + s.chan.length + s.drained.length = N)
    (h2 : s.draining = true → s.pending = [])
    (h3 : s.draining = false → s.drained = []) :
    (t.pending.length + t.chan.length + t.drained.length = N)
    ∧ (t.draining = true → t.pending = [])
    ∧ (t.draining = false → t.drained = []) := by
  cases hs with
  | finish l1 r l2 ch dr d =>
    refine ⟨by simp at h1 ⊢; omega, ?_, h3⟩
    intro hd
    exact absurd (h2 hd) (by simp)
  | startDrain ch dr =>
    exact ⟨h1, fun _ => rfl, fun hd => by simp at hd⟩
  | drainOne p r rest dr =>
    refine ⟨by simp at h1 ⊢; omega, fun _ => h2 rfl, fun hd => by simp at hd⟩

/-- The run invariant holds in every state reachable from the initial
state of a run over `apps`. -/
theorem creach_inv (apps : List String) (env : Nat → FetchOutcome) (s : CState)
    (h : Relation.ReflTransGen CStep (initState apps env) s) :
    (s.pending.length + s.chan.length + s.drained.length = apps.length)
    ∧ (s.draining = true → s.pending = [])
    ∧ (s.draining = false → s.drained = []) := by
  induction h with
  | refl =>
    refine ⟨by simp [initState, probeAll_length], ?_, fun _ => rfl⟩
    intro hd
    simp [initState] at hd
  | tail hsteps hstep ih =>
    exact cstep_inv apps.length _ _ hstep ih.1 ih.2.1 ih.2.2

/-- C2: an empty-string target short-circuits before URL construction and
the GET — whatever the network would have answered, the worker returns
Result(reachable=false, status=999, notes="no site name was provided")
and its list of fetched URLs is empty (no network call). -/
theorem c2_empty_site_short_circuit (f : FetchOutcome) :
    procApp "" f = some (⟨"", false, 999, "no site name was provided"⟩, []) := by
  rfl

/-- C8: classification is total — for every site and every network
behaviour (in particular every success body, including the empty body and
bodies shorter than 50 bytes) the worker reaches a verdict: `procApp`
never returns `none`, because the fallback preview clamps its slice to
min(50, len(body)). -/
theorem c8_classification_total (site : String) (f : FetchOutcome) :
    (procApp site f).isSome = true := by
  obtain ⟨r, calls, heq, -⟩ := procApp_spec site f
  rw [heq]
  rfl

/-- C10: when a transport error message contains both "EOF" and
"x509: certificate is valid for", the EOF rule wins (it is evaluated
first): reachable=false, status=999, notes prefixed "no response data". -/
theorem c10_eof_wins_over_cert (site msg : String) (hsite : site.length ≠ 0)
    (heof : containsStr msg "EOF" = true)
    (hcert : containsStr msg "x509: certificate is valid for" = true) :
    procApp site (.transportErr msg)
      = some (⟨site, false, 999, "no response data: " ++ msg⟩, [appURL site]) := by
  simp [procApp, hsite, heof]

/-- Closed witness for C10 at site "a" and a message carrying both
substrings. -/
theorem c10_eof_wins_over_cert_witness :
    procApp "a" (.transportErr "EOF x509: certificate is valid for z")
      = some (⟨"a", false, 999, "no response data: EOF x509: certificate is valid for z"⟩,
             [appURL "a"]) :=
  c10_eof_wins_over_cert "a" "EOF x509: certificate is valid for z"
    (by decide) (by decide) (by decide)

/-- C6: transport errors are classified by the worker's ordered message
checks — a message containing "EOF" gives status 999; otherwise one
containing the certificate-validity marker gives status 200; any other
message gives status 999.  In every case reachable=false, the notes embed
the raw error text, and exactly one GET was issued (no retry). -/
theorem c6_transport_error_rules (site msg : String) (hsite : site.length ≠ 0) :
    (containsStr msg "EOF" = true →
      procApp site (.transportErr msg)
        = some (⟨site, false, 999, "no response data: " ++ msg⟩, [appURL site]))
    ∧ (containsStr msg "EOF" = false →
       containsStr msg "x509: certificate is valid for" = true →
      procApp site (.transportErr msg)
        = some (⟨site, false, 200, "SSL certificate error: " ++ msg⟩, [appURL site]))
    ∧ (containsStr msg "EOF" = false →
       containsStr msg "x509: certificate is valid for" = false →
      procApp site (.transportErr msg)
        = some (⟨site, false, 999, "error getting site response: " ++ msg⟩, [appURL site])) := by
  refine ⟨fun h1 => ?_, fun h1 h2 => ?_, fun h1 h2 => ?_⟩
  · simp [procApp, hsite, h1]
  · simp [procApp, hsite, h1, h2]
  · simp [procApp, hsite, h1, h2]

/-- Closed witness for C6 exercising each of the three rules on its own
concrete error message at site "a". -/
theorem c6_transport_error_rules_witness :
    procApp "a" (.transportErr "unexpected EOF")
      = some (⟨"a", false, 999, "no response data: unexpected EOF"⟩, [appURL "a"])
    ∧ procApp "a" (.transportErr "x509: certificate is valid for z")
      = some (⟨"a", false, 200, "SSL certificate error: x509: certificate is valid for z"⟩,
             [appURL "a"])
    ∧ procApp "a" (.transportErr "connection refused")
      = some (⟨"a", false, 999, "error getting site response: connection refused"⟩,
             [appURL "a"]) :=
  ⟨(c6_transport_error_rules "a" "unexpected EOF" (by decide)).1 (by decide),
   (c6_transport_error_rules "a" "x509: certificate is valid for z" (by decide)).2.1
     (by decide) (by decide),
   (c6_transport_error_rules "a" "connection refused" (by decide)).2.2
     (by decide) (by decide)⟩

/-- Counterexample to C3 as stated: a body that contains the welcome-page
marker but also the Heroku application-error marker is classified by the
earlier error-marker rule, so its notes do not name a welcome/placeholder
page. -/
theorem c3_counterexample :
    procApp "a"
        (.success 503
          ("www.herokucdn.com/error-pages/application-error.htmlWelcome to your new app").toList)
      = some (⟨"a", false, 503, "Heroku error page"⟩, [appURL "a"])
    ∧ ("Heroku error page" : String) ≠ "Heroku welcome page" := by
  exact ⟨by decide, by decide⟩

/-- C3 amended: a body containing the welcome-page marker and neither of
the higher-precedence markers (Avant error, Heroku application error) is
classified reachable=false with notes "Heroku welcome page", even when the
body would also satisfy the HTML check. -/
theorem c3_welcome_precedes_html (site : String) (st : Nat) (body : List Char)
    (hsite : site.length ≠ 0)
    (hwel : isHerokuWelPage body = true)
    (havant : isAvantErrPage body = false)
    (herr : isHerokuErrPage body = false) :
    procApp site (.success st body)
      = some (⟨site, false, st, "Heroku welcome page"⟩, [appURL site]) := by
  simp [procApp, hsite, hwel, havant, herr]

/-- Closed witness for amended C3: a welcome-page body that is also valid
HTML is still reported as the welcome page. -/
theorem c3_welcome_precedes_html_witness :
    procApp "a" (.success 200 ("Welcome to your new app<html><body>").toList)
      = some (⟨"a", false, 200, "Heroku welcome page"⟩, [appURL "a"]) :=
  c3_welcome_precedes_html "a" 200 ("Welcome to your new app<html><body>").toList
    (by decide) (by decide) (by decide) (by decide)

/-- Counterexample to C4 as stated: "<Html" is a case-insensitive spelling
of the opening html tag, the body also has "<body" and no platform marker,
yet the code (which only checks the spellings "<html" and "<HTML") falls
through to the preview fallback instead of reporting "HTML page". -/
theorem c4_counterexample :
    procApp "a" (.success 200 ("<Html><body>x").toList)
      = some (⟨"a", true, 200, "found this (first 13 bytes): <Html><body>x..."⟩, [appURL "a"])
    ∧ ("found this (first 13 bytes): <Html><body>x..." : String) ≠ "HTML page" := by
  exact ⟨by decide, by decide⟩

/-- C4 amended: a body containing an opening html tag spelled exactly
"<html" or "<HTML", a body tag spelled exactly "<body" or "<BODY" (that is
what `isHTML` accepts), and no platform marker substring, yields
reachable=true, notes="HTML page", and the real response status. -/
theorem c4_html_page (site : String) (st : Nat) (body : List Char)
    (hsite : site.length ≠ 0)
    (hhtml : isHTML body = true)
    (havant : isAvantErrPage body = false)
    (herr : isHerokuErrPage body = false)
    (hwel : isHerokuWelPage body = false) :
    procApp site (.success st body)
      = some (⟨site, true, st, "HTML page"⟩, [appURL site]) := by
  simp [procApp, hsite, hhtml, havant, herr, hwel]

/-- Closed witness for amended C4 on a plain lower-case HTML body. -/
theorem c4_html_page_witness :
    procApp "a" (.success 200 ("<html><body>hello</body></html>").toList)
      = some (⟨"a", true, 200, "HTML page"⟩, [appURL "a"]) :=
  c4_html_page "a" 200 ("<html><body>hello</body></html>").toList
    (by decide) (by decide) (by decide) (by decide) (by decide)

/-- Slicing a body at min(50, its length) is always in bounds. -/
theorem goSlice_min (b : List Char) :
    goSlice b (min 50 b.length) = some (b.take (min 50 b.length)) := by
  unfold goSlice
  rw [if_pos (Nat.min_le_right _ _)]

/-- C5: a body matching no marker and not classified as HTML is reported
reachable=true with notes consisting of the preview prefix, exactly the
first min(50, len(body)) bytes of the body rendered as text, and the
ellipsis marker. -/
theorem c5_fallback_preview (site : String) (st : Nat) (body : List Char)
    (hsite : site.length ≠ 0)
    (havant : isAvantErrPage body = false)
    (herr : isHerokuErrPage body = false)
    (hwel : isHerokuWelPage body = false)
    (hhtml : isHTML body = false) :
    procApp site (.success st body)
      = some (⟨site, true, st,
              "found this (first " ++ toString (min 50 body.length) ++ " bytes): "
                ++ (body.take (min 50 body.length)).asString ++ "..."⟩,
             [appURL site]) := by
  have hmin : (if body.length < 50 then body.length else 50) = min 50 body.length := by
    split <;> omega
  simp [procApp, hsite, havant, herr, hwel, hhtml, hmin, goSlice_min]

/-- Closed witness for C5 at the two lengths the claim singles out: a
10-byte body is previewed whole, a 55-byte body is clamped to its first
50 bytes. -/
theorem c5_fallback_preview_witness :
    procApp "a" (.success 200 ("0123456789").toList)
      = some (⟨"a", true, 200,
              "found this (first " ++ toString (min 50 ("0123456789").toList.length)
                ++ " bytes): " ++ (("0123456789").toList.take
                  (min 50 ("0123456789").toList.length)).asString ++ "..."⟩,
             [appURL "a"])
    ∧ procApp "a"
        (.success 201 ("0123456789012345678901234567890123456789012345678901234").toList)
      = some (⟨"a", true, 201,
              "found this (first "
                ++ toString (min 50
                    ("0123456789012345678901234567890123456789012345678901234").toList.length)
                ++ " bytes): "
                ++ (("0123456789012345678901234567890123456789012345678901234").toList.take
                    (min 50
                      ("0123456789012345678901234567890123456789012345678901234").toList.length)).asString
                ++ "..."⟩,
             [appURL "a"]) :=
  ⟨c5_fallback_preview "a" 200 ("0123456789").toList
     (by decide) (by decide) (by decide) (by decide) (by decide),
   c5_fallback_preview "a" 201
     ("0123456789012345678901234567890123456789012345678901234").toList
     (by decide) (by decide) (by decide) (by decide) (by decide)⟩

/-- On a successful fetch the worker's Status field is the real response
status code, whatever the body classification. -/
theorem procApp_success_status (site : String) (hsite : site.length ≠ 0)
    (st : Nat) (body : List Char) :
    statusOf (procApp site (.success st body)) = some st := by
  by_cases h1 : isAvantErrPage body
  · simp [procApp, statusOf, hsite, h1]
  · by_cases h2 : isHerokuErrPage body
    · simp [procApp, statusOf, hsite, h1, h2]
    · by_cases h3 : isHerokuWelPage body
      · simp [procApp, statusOf, hsite, h1, h2, h3]
      · by_cases h4 : isHTML body
        · simp [procApp, statusOf, hsite, h1, h2, h3, h4]
        · have hmin : (if body.length < 50 then body.length else 50)
              = min 50 body.length := by
            split <;> omega
          simp [procApp, statusOf, hsite, h1, h2, h3, h4, hmin, goSlice_min]

/-- Counterexample to C7 as stated: a transport failure whose message
carries the certificate-validity marker produces no response, yet the
worker records status 200, not the 999 sentinel. -/
theorem c7_counterexample :
    statusOf (procApp "a" (.transportErr "x509: certificate is valid for z")) = some 200
    ∧ (200 : Nat) ≠ 999 := by
  exact ⟨by decide, by decide⟩

/-- C7 amended: the Status field is the real HTTP status code on a
successful fetch, and is the 999 sentinel on a body-read failure and on
every transport failure except the quirk case — a transport error message
without "EOF" but with the certificate-validity marker, which is recorded
as status 200. -/
theorem c7_status_field (site : String) (hsite : site.length ≠ 0) (f : FetchOutcome) :
    (∀ st body, f = .success st body → statusOf (procApp site f) = some st)
    ∧ (∀ msg, f = .readErr msg → statusOf (procApp site f) = some 999)
    ∧ (∀ msg, f = .transportErr msg →
        containsStr msg "x509: certificate is valid for" = false
          ∨ containsStr msg "EOF" = true →
        statusOf (procApp site f) = some 999) := by
  refine ⟨?_, ?_, ?_⟩
  · rintro st body rfl
    exact procApp_success_status site hsite st body
  · rintro msg rfl
    simp [procApp, statusOf, hsite]
  · rintro msg rfl hc
    rcases hc with hc | hc
    · by_cases he : containsStr msg "EOF"
      · simp [procApp, statusOf, hsite, he]
      · simp [procApp, statusOf, hsite, he, hc]
    · simp [procApp, statusOf, hsite, hc]

/-- Closed witness for amended C7: a successful fetch with status 204 is
reported with status 204. -/
theorem c7_status_field_witness :
    statusOf (procApp "a" (FetchOutcome.success 204 ("x").toList)) = some 204 :=
  (c7_status_field "a" (by decide) (FetchOutcome.success 204 ("x").toList)).1
    204 ("x").toList rfl

/-- C1: whatever order worker results arrive in (any permutation of the
fan-out output), the report has exactly one data row per target, the
multiset of App fields across the drained results equals the multiset of
input identifiers, and the empty target list yields a report with no data
rows. -/
theorem c1_one_result_per_target (apps : List String) (env : Nat → FetchOutcome)
    (drained : List reqRslt) (h : drained.Perm (probeAll apps env)) :
    (report drained).tail.length = apps.length
    ∧ (drained.map reqRslt.App).Perm apps
    ∧ (apps = [] → (report drained).tail = []) := by
  refine ⟨?_, ?_, ?_⟩
  · simp only [report, List.tail_cons, List.length_map]
    rw [h.length_eq, probeAll_length]
  · have h2 := h.map reqRslt.App
    rwa [probeAll_map_app] at h2
  · rintro rfl
    have h0 : drained.Perm [] := h
    rw [List.Perm.eq_nil h0]
    rfl

/-- Closed witness for C1: two targets whose results are drained in
reversed arrival order still give a two-row report whose App multiset is
the input multiset. -/
theorem c1_one_result_per_target_witness :
    (report ((probeAll ["x", ""] (constEnv (FetchOutcome.readErr "e"))).reverse)).tail.length
        = (["x", ""] : List String).length
    ∧ (((probeAll ["x", ""] (constEnv (FetchOutcome.readErr "e"))).reverse).map reqRslt.App).Perm
        ["x", ""]
    ∧ ((["x", ""] : List String) = [] →
        (report ((probeAll ["x", ""] (constEnv (FetchOutcome.readErr "e"))).reverse)).tail = []) :=
  c1_one_result_per_target ["x", ""] (constEnv (FetchOutcome.readErr "e")) _
    (List.reverse_perm _)

/-- C9: in every reachable state of the dispatcher/collector run, no row
is drained before `wg.Wait` passes; once draining has begun every worker
has finished and all `len(apps)` results are split between the channel
and the drained rows; and a drained list that has exhausted the channel
holds exactly `len(apps)` rows. -/
theorem c9_barrier_before_drain (apps : List String) (env : Nat → FetchOutcome)
    (s : CState) (h : Relation.ReflTransGen CStep (initState apps env) s) :
    (s.draining = false → s.drained = [])
    ∧ (s.draining = true → s.pending = []
        ∧ s.chan.length + s.drained.length = apps.length)
    ∧ (s.draining = true → s.chan = [] → s.drained.length = apps.length) := by
  obtain ⟨h1, h2, h3⟩ := creach_inv apps env s h
  refine ⟨h3, ?_, ?_⟩
  · intro hd
    refine ⟨h2 hd, ?_⟩
    rw [h2 hd] at h1
    simpa using h1
  · intro hd hc
    rw [h2 hd, hc] at h1
    simpa using h1

/-- Closed witness for C9: the state reached after the single worker of a
one-target run delivers its result is constrained as the theorem says. -/
theorem c9_barrier_before_drain_witness :
    ((CState.mk [] [reqRslt.mk "" false 999 "no site name was provided"] [] false).draining = false →
      (CState.mk [] [reqRslt.mk "" false 999 "no site name was provided"] [] false).drained = [])
    ∧ ((CState.mk [] [reqRslt.mk "" false 999 "no site name was provided"] [] false).draining = true →
        (CState.mk [] [reqRslt.mk "" false 999 "no site name was provided"] [] false).pending = []
        ∧ (CState.mk [] [reqRslt.mk "" false 999 "no site name was provided"] [] false).chan.length
            + (CState.mk [] [reqRslt.mk "" false 999 "no site name was provided"] [] false).drained.length
            = ([""] : List String).length)
    ∧ ((CState.mk [] [reqRslt.mk "" false 999 "no site name was provided"] [] false).draining = true →
        (CState.mk [] [reqRslt.mk "" false 999 "no site name was provided"] [] false).chan = [] →
        (CState.mk [] [reqRslt.mk "" false 999 "no site name was provided"] [] false).drained.length
          = ([""] : List String).length) :=
  c9_barrier_before_drain [""] (constEnv (FetchOutcome.readErr "e")) _
    (Relation.ReflTransGen.single
      (CStep.finish [] (reqRslt.mk "" false 999 "no site name was provided") [] [] [] false))
